import Mathlib

/-!
Verification of the Lambda-layer shell-script generator
(`src/lambda-layer-generator.js`).

The script generator is a pure function of four pieces of UI state:
the selected Python runtime version, the package-manager strategy
(`'pyenv'` or `'uv'`), the free-text dependency list, and the archive
base name.  We embed the generator and the UI state transitions and
prove the behavioural claims about them.
-/

set_option maxRecDepth 50000

namespace LambdaLayer

/-- JavaScript whitespace predicate used by `String.prototype.trim`:
space, tab, LF, VT, FF, CR, NBSP, BOM and the Unicode line/paragraph
separators (the characters relevant to this code base). -/
def isJsWs (c : Char) : Bool :=
  c == ' ' || c == '\t' || c == '\n' || c == '\r' ||
  c == Char.ofNat 11 || c == Char.ofNat 12 || c == Char.ofNat 160 ||
  c == Char.ofNat 0xFEFF || c == Char.ofNat 0x2028 || c == Char.ofNat 0x2029

/-- JavaScript `String.prototype.trim`: drop leading and trailing
whitespace characters, leave the interior untouched. -/
def jsTrim (s : String) : String :=
  ⟨((s.data.dropWhile isJsWs).reverse.dropWhile isJsWs).reverse⟩

/-- `startsWith pat l`: `pat` is a leading segment of `l`. -/
def startsWith : List Char → List Char → Bool
  | [], _ => true
  | _ :: _, [] => false
  | p :: ps, c :: cs => p == c && startsWith ps cs

/-- Replace the first occurrence of `pat` (JavaScript
`String.prototype.replace` with a string pattern replaces only the
first occurrence). -/
def replaceFirstAux (pat repl : List Char) : List Char → List Char
  | [] => if startsWith pat [] then repl else []
  | c :: rest =>
      if startsWith pat (c :: rest) then repl ++ (c :: rest).drop pat.length
      else c :: replaceFirstAux pat repl rest

/-- JavaScript `s.replace(pat, repl)` for a string pattern: only the
first occurrence is replaced. -/
def jsReplaceFirst (s pat repl : String) : String :=
  ⟨replaceFirstAux pat.data repl.data s.data⟩

/-- `const requirementsContent = libraries || 'requests==2.32.3';`
where `libraries = librariesTextarea.value.trim()` (an empty trimmed
string is falsy in JavaScript). -/
def requirementsContentOf (librariesValue : String) : String :=
  if jsTrim librariesValue = "" then "requests==2.32.3" else jsTrim librariesValue

/-- `const zipName = zipNameInput.value.trim() || 'lambda-layer';` -/
def zipNameOf (zipNameValue : String) : String :=
  if jsTrim zipNameValue = "" then "lambda-layer" else jsTrim zipNameValue

/-- `const pyShortVersion = pyVersion.replace('.', '');` -/
def pyShortVersionOf (v : String) : String := jsReplaceFirst v "." ""

/-- The dependency-manifest heredoc block
`cat << EOF > requirements.txt\n${requirementsContent}\nEOF\n`
common to both template branches. -/
def manifestBlock (req : String) : String :=
  "cat << EOF > requirements.txt\n" ++ req ++ "\nEOF\n"

/-- The archive-creation command
`zip -r ${zipName}-py${pyShortVersion}.zip python\n`
common to both template branches. -/
def archiveCommand (zn short : String) : String :=
  "zip -r " ++ zn ++ "-py" ++ short ++ ".zip python\n"

/-- The cleanup block `# Cleanup\ndeactivate\nrm -rf create_layer/ python/\n`
common to both template branches. -/
def cleanupBlock : String :=
  "# Cleanup\ndeactivate\nrm -rf create_layer/ python/\n"

/-- Lines of the pyenv branch before the manifest heredoc. -/
def pyenvSetup (v : String) : String :=
  "mkdir -p layer-build/ && cd layer-build/\npyenv local " ++ v ++
  "\npyenv which python\n\n"

/-- Lines of the pyenv branch between the manifest heredoc and the
archive command. -/
def pyenvInstall : String :=
  "\npython -m venv create_layer\nsource create_layer/bin/activate\npip install -r requirements.txt\nmkdir -p python\ncp -r create_layer/lib python/\n"

/-- Line of the uv branch before the manifest heredoc. -/
def uvSetup : String :=
  "mkdir -p layer-build/ && cd layer-build/\n"

/-- Lines of the uv branch between the manifest heredoc and the
archive command. -/
def uvInstall (v : String) : String :=
  "\nuv venv --python " ++ v ++ " create_layer/\nsource create_layer/bin/activate\nuv pip install -r requirements.txt\nmkdir -p python\ncp -r create_layer/lib python/\n"

/-- The template of the `packageManager === 'pyenv'` branch
(source lines 82–100). -/
def pyenvTemplate (v req zn short : String) : String :=
  pyenvSetup v ++ manifestBlock req ++ pyenvInstall ++
  archiveCommand zn short ++ "\n" ++ cleanupBlock

/-- The template of the `else` (uv) branch (source lines 102–117). -/
def uvTemplate (v req zn short : String) : String :=
  uvSetup ++ manifestBlock req ++ uvInstall v ++
  archiveCommand zn short ++ "\n" ++ cleanupBlock

/-- `generateCode` (source lines 70–122), as a function of the four
pieces of state it reads: `selectedVersion`, `packageManager`, the
dependency textarea value and the zip-name input value.  It returns
the generated script text. -/
def generateCode (selectedVersion packageManager librariesValue zipNameValue : String) :
    String :=
  if packageManager = "pyenv" then
    pyenvTemplate selectedVersion (requirementsContentOf librariesValue)
      (zipNameOf zipNameValue) (pyShortVersionOf selectedVersion)
  else
    uvTemplate selectedVersion (requirementsContentOf librariesValue)
      (zipNameOf zipNameValue) (pyShortVersionOf selectedVersion)

/-- The suggested download filename
`lambda-layer-${packageManager}-py${selectedVersion.replace('.', '')}.sh`
(source line 58).  Note that the *strategy* tag appears here, in the
script filename, not in the archive name inside the script. -/
def suggestedFilename (packageManager selectedVersion : String) : String :=
  "lambda-layer-" ++ packageManager ++ "-py" ++ pyShortVersionOf selectedVersion ++ ".sh"

/-! ## Substring machinery -/

/-- Number of positions of `l` at which `pat` starts (all starting
positions of occurrences of `pat` as a contiguous substring). -/
def countOccs (pat : List Char) : List Char → Nat
  | [] => if startsWith pat [] then 1 else 0
  | c :: rest => (if startsWith pat (c :: rest) then 1 else 0) + countOccs pat rest

/-- Index of the first occurrence of `pat` in `l`, if any. -/
def findSub (pat : List Char) : List Char → Option Nat
  | [] => if startsWith pat [] then some 0 else none
  | c :: rest =>
      if startsWith pat (c :: rest) then some 0
      else (findSub pat rest).map (· + 1)

/-- The first occurrence of `p2` in `t` lies strictly after the first
occurrence of `p1` (and both occur). -/
def occursAfter (t p1 p2 : List Char) : Bool :=
  match findSub p1 t, findSub p2 t with
  | some i, some j => decide (i < j)
  | _, _ => false

/-- `pat` occurs as a contiguous substring of `s`. -/
def containsSubStr (s pat : String) : Prop :=
  ∃ a b : List Char, s.data = a ++ pat.data ++ b

/-- `s` ends with `t`. -/
def endsWithStr (s t : String) : Prop :=
  ∃ a : List Char, s.data = a ++ t.data

/-! ## UI state (Configuration) and its transitions -/

/-- The four pieces of mutable UI state read by `generateCode`:
`selectedVersion` and `packageManager` (source lines 13–14) and the
current values of the dependency textarea and the zip-name input. -/
structure Config where
  selectedVersion : String
  packageManager : String
  librariesValue : String
  zipNameValue : String
deriving DecidableEq

/-- Initial state: `selectedVersion = '3.10'`, `packageManager = 'pyenv'`
(source lines 13–14); the free-text fields start empty. -/
def initialConfig : Config := ⟨"3.10", "pyenv", "", ""⟩

/-- A version button's click handler sets `selectedVersion` to the
button's `data-version` (source lines 20–27). -/
def clickVersionBtn (c : Config) (v : String) : Config :=
  { c with selectedVersion := v }

/-- The pyenv button's click handler sets `packageManager = 'pyenv'`
(source lines 29–34). -/
def clickPyenvBtn (c : Config) : Config :=
  { c with packageManager := "pyenv" }

/-- The uv button's click handler sets `packageManager = 'uv'`
(source lines 36–41). -/
def clickUvBtn (c : Config) : Config :=
  { c with packageManager := "uv" }

/-- Input into the dependency textarea replaces its value. -/
def inputLibraries (c : Config) (t : String) : Config :=
  { c with librariesValue := t }

/-- Input into the zip-name field replaces its value. -/
def inputZipName (c : Config) (t : String) : Config :=
  { c with zipNameValue := t }

/-- The states reachable from the initial state through the UI event
handlers of the source. -/
inductive Reachable : Config → Prop
  | init : Reachable initialConfig
  | versionBtn {c} (v : String) : Reachable c → Reachable (clickVersionBtn c v)
  | pyenvBtn {c} : Reachable c → Reachable (clickPyenvBtn c)
  | uvBtn {c} : Reachable c → Reachable (clickUvBtn c)
  | libraries {c} (t : String) : Reachable c → Reachable (inputLibraries c t)
  | zipName {c} (t : String) : Reachable c → Reachable (inputZipName c t)

/-- `generateCode` as a function of a `Config` snapshot. -/
def generateCodeOf (c : Config) : String :=
  generateCode c.selectedVersion c.packageManager c.librariesValue c.zipNameValue

/-! ## Configuration Store (version validation) -/

/-- Modelled from the spec: the enumerated set of supported runtime
versions ("3.9".."3.13", §3).  The HTML document that declares one
version button per supported version is not part of the source tree;
only the buttons' click handler is. -/
def supportedVersions : List String := ["3.9", "3.10", "3.11", "3.12", "3.13"]

/-- The two strategy values set by the source's button handlers. -/
def strategyNames : List String := ["pyenv", "uv"]

/-- Errors of the Configuration Store boundary (spec §7). -/
inductive StoreError where
  | invalidVersion
  | invalidStrategy
deriving DecidableEq

/-- A Configuration Store snapshot: the Configuration plus the number
of artifact regenerations triggered so far. -/
structure Store where
  config : Config
  regenCount : Nat
deriving DecidableEq

/-- Modelled from the spec: `selectRuntimeVersion(v)` of the
Configuration Store (§4.1).  The HTML that enumerates the version
buttons is not under `src/`; per the spec, a version outside the
supported set fails with `InvalidVersion`, leaves the Configuration
unchanged and triggers no regeneration, while a supported version
replaces `runtimeVersion` and triggers one regeneration (the click
handler, source lines 20–27). -/
def selectRuntimeVersion (st : Store) (v : String) : Store × Option StoreError :=
  if v ∈ supportedVersions then
    ({ config := clickVersionBtn st.config v, regenCount := st.regenCount + 1 }, none)
  else
    (st, some StoreError.invalidVersion)

-- sanity checks of the embedding on concrete inputs
example : jsTrim "  a b  " = "a b" := by decide
example : pyShortVersionOf "3.10" = "310" := by decide
example : generateCode "3.10" "pyenv" "" "" =
    "mkdir -p layer-build/ && cd layer-build/\npyenv local 3.10\npyenv which python\n\ncat << EOF > requirements.txt\nrequests==2.32.3\nEOF\n\npython -m venv create_layer\nsource create_layer/bin/activate\npip install -r requirements.txt\nmkdir -p python\ncp -r create_layer/lib python/\nzip -r lambda-layer-py310.zip python\n\n# Cleanup\ndeactivate\nrm -rf create_layer/ python/\n" := by
  decide
example : generateCode "3.12" "uv" "numpy==2.0" "my-layer" =
    "mkdir -p layer-build/ && cd layer-build/\ncat << EOF > requirements.txt\nnumpy==2.0\nEOF\n\nuv venv --python 3.12 create_layer/\nsource create_layer/bin/activate\nuv pip install -r requirements.txt\nmkdir -p python\ncp -r create_layer/lib python/\nzip -r my-layer-py312.zip python\n\n# Cleanup\ndeactivate\nrm -rf create_layer/ python/\n" := by
  decide

/-! ## Helper lemmas -/

theorem dataAppend (a b : String) : (a ++ b).data = a.data ++ b.data := by
  cases a; cases b; rfl

theorem strAppend_assoc (a b c : String) : a ++ b ++ c = a ++ (b ++ c) := by
  cases a; cases b; cases c
  show String.mk _ = String.mk _
  rw [List.append_assoc]

theorem containsSubStr_decomp (a p b : String) : containsSubStr (a ++ p ++ b) p :=
  ⟨a.data, b.data, by simp [dataAppend]⟩

theorem endsWithStr_decomp (a t : String) : endsWithStr (a ++ t) t :=
  ⟨a.data, dataAppend a t⟩

theorem startsWith_iff (p : List Char) :
    ∀ l : List Char, startsWith p l = true ↔ ∃ t, l = p ++ t := by
  induction p with
  | nil => intro l; simp [startsWith]
  | cons c cs ih =>
      intro l
      cases l with
      | nil => simp [startsWith]
      | cons d ds =>
          simp only [startsWith, Bool.and_eq_true, beq_iff_eq, ih ds]
          constructor
          · rintro ⟨rfl, t, rfl⟩; exact ⟨t, rfl⟩
          · rintro ⟨t, h⟩
            injection h with h1 h2
            exact ⟨h1.symm, t, h2⟩

theorem countOccs_pos_of_decomp (p : List Char) :
    ∀ a b : List Char, 0 < countOccs p (a ++ p ++ b) := by
  intro a
  induction a with
  | nil =>
      intro b
      have hsw : startsWith p (p ++ b) = true := (startsWith_iff p _).mpr ⟨b, rfl⟩
      cases hpb : p ++ b with
      | nil => rw [List.nil_append, hpb]; simp [countOccs, hpb ▸ hsw]
      | cons c rest => rw [List.nil_append, hpb]; simp [countOccs, hpb ▸ hsw]
  | cons c cs ih =>
      intro b
      simp only [List.cons_append, countOccs]
      exact Nat.add_pos_right _ (ih b)

/-- A string whose character list contains `p.data` has a positive
occurrence count for `p`. -/
theorem countOccs_pos_of_containsSubStr (s p : String) (h : containsSubStr s p) :
    0 < countOccs p.data s.data := by
  obtain ⟨a, b, hab⟩ := h
  rw [hab]
  exact countOccs_pos_of_decomp p.data a b

/-- The generated text always embeds the manifest heredoc block built
from the resolved dependency text, whatever the strategy value. -/
theorem generate_contains_manifest (v pm l z : String) :
    containsSubStr (generateCode v pm l z)
      (manifestBlock (requirementsContentOf l)) := by
  by_cases h : pm = "pyenv"
  · have he : generateCode v pm l z =
        pyenvSetup v ++ manifestBlock (requirementsContentOf l) ++
          (pyenvInstall ++
            (archiveCommand (zipNameOf z) (pyShortVersionOf v) ++ ("\n" ++ cleanupBlock))) := by
      simp [generateCode, h, pyenvTemplate, strAppend_assoc]
    rw [he]
    exact containsSubStr_decomp _ _ _
  · have he : generateCode v pm l z =
        uvSetup ++ manifestBlock (requirementsContentOf l) ++
          (uvInstall v ++
            (archiveCommand (zipNameOf z) (pyShortVersionOf v) ++ ("\n" ++ cleanupBlock))) := by
      simp [generateCode, h, uvTemplate, strAppend_assoc]
    rw [he]
    exact containsSubStr_decomp _ _ _

/-- The generated text always ends with the cleanup block, whatever
the strategy value: the cleanup commands are appended unconditionally. -/
theorem generate_endsWith_cleanup (v pm l z : String) :
    endsWithStr (generateCode v pm l z) cleanupBlock := by
  by_cases h : pm = "pyenv"
  · simp only [generateCode, if_pos h, pyenvTemplate]
    exact endsWithStr_decomp _ _
  · simp only [generateCode, if_neg h, uvTemplate]
    exact endsWithStr_decomp _ _

/-! ## Claim theorems -/

/-- Claim C1, counterexample: the claim asserts the archive name embeds a
tag specific to the selected strategy, differing between the legacy/pyenv
and fast/uv strategies.  In fact, at version "3.10" with default
dependencies and base name, both strategies produce the very same unique
archive-creation command `zip -r lambda-layer-py310.zip python`: the tag
(`py` plus the short version) is identical across strategies. -/
theorem c1_archive_tag_counterexample :
    archiveCommand (zipNameOf "") (pyShortVersionOf "3.10") =
      "zip -r lambda-layer-py310.zip python\n"
    ∧ countOccs "zip -r lambda-layer-py310.zip python\n".data
        (generateCode "3.10" "pyenv" "" "").data = 1
    ∧ countOccs "zip -r lambda-layer-py310.zip python\n".data
        (generateCode "3.10" "uv" "" "").data = 1
    ∧ countOccs "zip -r ".data (generateCode "3.10" "pyenv" "" "").data = 1
    ∧ countOccs "zip -r ".data (generateCode "3.10" "uv" "" "").data = 1 := by
  decide

/-- Claim C1, amended: for every valid pair of runtime version and strategy
(default dependency text and base name), the generated text contains exactly
one occurrence of the interpolated runtime version string and exactly one
archive-creation command, and that command's archive name embeds the
resolved base name and the version tag `py` + short version — the same tag
for both strategies. -/
theorem c1_version_and_archive_occurrences :
    ∀ v ∈ supportedVersions, ∀ pm ∈ strategyNames,
      countOccs v.data (generateCode v pm "" "").data = 1
      ∧ countOccs "zip -r ".data (generateCode v pm "" "").data = 1
      ∧ countOccs (archiveCommand "lambda-layer" (pyShortVersionOf v)).data
          (generateCode v pm "" "").data = 1 := by
  decide

/-- Witness for C1's amended theorem at version "3.11", legacy strategy. -/
theorem c1_version_and_archive_occurrences_witness :
    countOccs "3.11".data (generateCode "3.11" "pyenv" "" "").data = 1
    ∧ countOccs "zip -r ".data (generateCode "3.11" "pyenv" "" "").data = 1
    ∧ countOccs (archiveCommand "lambda-layer" (pyShortVersionOf "3.11")).data
        (generateCode "3.11" "pyenv" "" "").data = 1 :=
  c1_version_and_archive_occurrences "3.11" (by decide) "pyenv" (by decide)

/-- Claim C2, counterexample: the claim asserts that no characters of the
dependency text — including its leading or trailing whitespace — are
removed.  In fact the textarea value is passed through `trim()`: for the
dependency text `" numpy==2.0"` the resolved manifest content is
`"numpy==2.0"`, and the original text (with its leading space) occurs
nowhere in the generated script. -/
theorem c2_leading_whitespace_removed :
    requirementsContentOf " numpy==2.0" = "numpy==2.0"
    ∧ countOccs " numpy==2.0".data
        (generateCode "3.10" "pyenv" " numpy==2.0" "").data = 0 := by
  decide

/-- Claim C2, amended: for every dependency text that is not empty and not
whitespace-only, the generated script embeds the *trimmed* dependency text
(leading and trailing whitespace of the whole text removed) verbatim in the
manifest heredoc — interior line order and content exactly as entered, no
trimming of interior lines, no deduplication; concretely, the two-line
dependency list of the spec scenario appears exactly once, in order. -/
theorem c2_dependencies_verbatim_after_trim :
    (∀ v pm z l, jsTrim l ≠ "" →
        requirementsContentOf l = jsTrim l
        ∧ containsSubStr (generateCode v pm l z) (manifestBlock (jsTrim l)))
    ∧ countOccs "numpy==2.0\npandas==2.2".data
        (generateCode "3.10" "uv" "numpy==2.0\npandas==2.2" "my-layer").data = 1 := by
  constructor
  · intro v pm z l h
    have hr : requirementsContentOf l = jsTrim l := by
      simp [requirementsContentOf, h]
    refine ⟨hr, ?_⟩
    rw [← hr]
    exact generate_contains_manifest v pm l z
  · decide

/-- Witness for C2's amended theorem on the spec's two-line scenario. -/
theorem c2_dependencies_verbatim_after_trim_witness :
    requirementsContentOf "numpy==2.0\npandas==2.2" = jsTrim "numpy==2.0\npandas==2.2"
    ∧ containsSubStr (generateCode "3.10" "uv" "numpy==2.0\npandas==2.2" "my-layer")
        (manifestBlock (jsTrim "numpy==2.0\npandas==2.2")) :=
  c2_dependencies_verbatim_after_trim.1 "3.10" "uv" "my-layer"
    "numpy==2.0\npandas==2.2" (by decide)

/-- Claim C3: with an empty dependency text the generated script's manifest
contains the documented default dependency line `requests==2.32.3`, and a
whitespace-only dependency text produces exactly the same generated text as
the empty one — for every version, strategy and base-name input. -/
theorem c3_default_dependency_line :
    (∀ v pm z, generateCode v pm "  " z = generateCode v pm "" z)
    ∧ requirementsContentOf "" = "requests==2.32.3"
    ∧ ∀ v pm z, containsSubStr (generateCode v pm "" z)
        (manifestBlock "requests==2.32.3") := by
  have hr : requirementsContentOf "" = "requests==2.32.3" := by decide
  refine ⟨fun v pm z => rfl, hr, fun v pm z => ?_⟩
  rw [← hr]
  exact generate_contains_manifest v pm "" z

/-- Claim C4: an empty or whitespace-only base name resolves to the default
`lambda-layer` (and yields the same generated text as the empty base name);
in the legacy scenario — version "3.11", empty dependencies, empty base
name — the text contains the default dependency line exactly once and the
archive command `zip -r lambda-layer-py311.zip python` exactly once,
referencing the version token 311. -/
theorem c4_default_base_name :
    (∀ z, jsTrim z = "" →
        zipNameOf z = "lambda-layer"
        ∧ ∀ v pm l, generateCode v pm l z = generateCode v pm l "")
    ∧ countOccs "requests==2.32.3".data (generateCode "3.11" "pyenv" "" "").data = 1
    ∧ countOccs "zip -r lambda-layer-py311.zip python\n".data
        (generateCode "3.11" "pyenv" "" "").data = 1 := by
  refine ⟨fun z hz => ⟨?_, fun v pm l => ?_⟩, by decide, by decide⟩
  · simp [zipNameOf, hz]
  · have h1 : zipNameOf z = zipNameOf "" := by
      simp only [zipNameOf, hz]
      decide
    simp only [generateCode, h1]

/-- Witness for C4 at the whitespace-only base name "  ". -/
theorem c4_default_base_name_witness :
    zipNameOf "  " = "lambda-layer"
    ∧ generateCode "3.11" "pyenv" "" "  " = generateCode "3.11" "pyenv" "" "" :=
  ⟨(c4_default_base_name.1 "  " (by decide)).1,
   (c4_default_base_name.1 "  " (by decide)).2 "3.11" "pyenv" ""⟩

/-- Claim C5, counterexample: the claim asserts that in every generated
artifact the cleanup command sequence appears exactly once and after the
archive-creation command.  A dependency text consisting of the cleanup
lines themselves is spliced verbatim into the manifest heredoc, so the
generated script contains the cleanup sequence twice, and its first
occurrence lies before (not after) the archive-creation command. -/
theorem c5_cleanup_injection_counterexample :
    countOccs cleanupBlock.data
      (generateCode "3.10" "pyenv"
        "# Cleanup\ndeactivate\nrm -rf create_layer/ python/" "").data = 2
    ∧ occursAfter
        (generateCode "3.10" "pyenv"
          "# Cleanup\ndeactivate\nrm -rf create_layer/ python/" "").data
        (archiveCommand "lambda-layer" (pyShortVersionOf "3.10")).data
        cleanupBlock.data = false := by
  decide

/-- Claim C5, amended: for every valid version/strategy pair with default
free-text fields (so the dependency text does not itself inject the cleanup
lines) the cleanup command sequence appears exactly once in the generated
text and strictly after the archive-creation command; moreover, for all
inputs whatsoever the cleanup block is unconditionally appended at the end
of the script — it is not guarded by success checks of earlier steps. -/
theorem c5_cleanup_once_after_archive :
    (∀ v ∈ supportedVersions, ∀ pm ∈ strategyNames,
        countOccs cleanupBlock.data (generateCode v pm "" "").data = 1
        ∧ occursAfter (generateCode v pm "" "").data
            (archiveCommand "lambda-layer" (pyShortVersionOf v)).data
            cleanupBlock.data = true)
    ∧ ∀ v pm l z, endsWithStr (generateCode v pm l z) cleanupBlock :=
  ⟨by decide, generate_endsWith_cleanup⟩

/-- Witness for C5 at version "3.10"/legacy and at arbitrary concrete
free-text inputs under the fast strategy. -/
theorem c5_cleanup_once_after_archive_witness :
    (countOccs cleanupBlock.data (generateCode "3.10" "pyenv" "" "").data = 1
      ∧ occursAfter (generateCode "3.10" "pyenv" "" "").data
          (archiveCommand "lambda-layer" (pyShortVersionOf "3.10")).data
          cleanupBlock.data = true)
    ∧ endsWithStr (generateCode "3.12" "uv" "x" "y") cleanupBlock :=
  ⟨c5_cleanup_once_after_archive.1 "3.10" (by decide) "pyenv" (by decide),
   c5_cleanup_once_after_archive.2 "3.12" "uv" "x" "y"⟩

/-- Claim C6: a dependency text containing a line that would prematurely
terminate the manifest heredoc (a line equal to `EOF`) is embedded verbatim
— no escaping, validation or rejection: the resolved manifest content
equals the trimmed input and is embedded as-is; concretely, with the
dependency text `pandas==2.2\nEOF\nnumpy==2.0` the generated script
contains the heredoc-terminating line pattern `\nEOF\n` twice — once
injected from the dependency text, before the intended terminator. -/
theorem c6_heredoc_terminator_not_escaped :
    (∀ v pm z l, jsTrim l ≠ "" →
        requirementsContentOf l = jsTrim l
        ∧ containsSubStr (generateCode v pm l z) (manifestBlock (jsTrim l)))
    ∧ countOccs "\nEOF\n".data
        (generateCode "3.10" "pyenv" "pandas==2.2\nEOF\nnumpy==2.0" "").data = 2 := by
  constructor
  · intro v pm z l h
    have hr : requirementsContentOf l = jsTrim l := by
      simp [requirementsContentOf, h]
    refine ⟨hr, ?_⟩
    rw [← hr]
    exact generate_contains_manifest v pm l z
  · decide

/-- Witness for C6 at a dependency text with an interior `EOF` line. -/
theorem c6_heredoc_terminator_not_escaped_witness :
    requirementsContentOf "a\nEOF\nb" = jsTrim "a\nEOF\nb"
    ∧ containsSubStr (generateCode "3.11" "uv" "a\nEOF\nb" "z-layer")
        (manifestBlock (jsTrim "a\nEOF\nb")) :=
  c6_heredoc_terminator_not_escaped.1 "3.11" "uv" "z-layer" "a\nEOF\nb" (by decide)

/-- Claim C7: in every reachable UI state the Configuration holds exactly
one selected strategy — one of the two supported variants (`pyenv` for
legacy-venv, `uv` for fast-venv), never both and never neither — and after
clicking the fast/uv strategy button the strategy is exactly `uv`. -/
theorem c7_strategy_exclusivity (c : Config) (h : Reachable c) :
    (c.packageManager = "pyenv" ∨ c.packageManager = "uv")
    ∧ ¬(c.packageManager = "pyenv" ∧ c.packageManager = "uv")
    ∧ (clickUvBtn c).packageManager = "uv" := by
  refine ⟨?_, ?_, rfl⟩
  · induction h with
    | init => exact Or.inl rfl
    | versionBtn v _ ih => exact ih
    | pyenvBtn _ _ => exact Or.inl rfl
    | uvBtn _ _ => exact Or.inr rfl
    | libraries t _ ih => exact ih
    | zipName t _ ih => exact ih
  · rintro ⟨h1, h2⟩
    exact absurd (h1.symm.trans h2) (by decide)

/-- Witness for C7 at the initial state. -/
theorem c7_strategy_exclusivity_witness :
    (initialConfig.packageManager = "pyenv" ∨ initialConfig.packageManager = "uv")
    ∧ ¬(initialConfig.packageManager = "pyenv" ∧ initialConfig.packageManager = "uv")
    ∧ (clickUvBtn initialConfig).packageManager = "uv" :=
  c7_strategy_exclusivity initialConfig Reachable.init

/-- Claim C8: for every version string outside the supported enumerated
set, `selectRuntimeVersion` fails with `InvalidVersion`, the Configuration
(and the regeneration count) remains unchanged, and no regeneration of the
artifact is triggered. -/
theorem c8_invalid_version_rejected (st : Store) (v : String)
    (h : v ∉ supportedVersions) :
    (selectRuntimeVersion st v).1 = st
    ∧ (selectRuntimeVersion st v).2 = some StoreError.invalidVersion := by
  simp [selectRuntimeVersion, h]

/-- Witness for C8 at the unsupported version "2.7". -/
theorem c8_invalid_version_rejected_witness :
    (selectRuntimeVersion ⟨initialConfig, 0⟩ "2.7").1 = (⟨initialConfig, 0⟩ : Store)
    ∧ (selectRuntimeVersion ⟨initialConfig, 0⟩ "2.7").2 =
        some StoreError.invalidVersion :=
  c8_invalid_version_rejected ⟨initialConfig, 0⟩ "2.7" (by decide)

/-- Claim C9: `generate` is deterministic — two Configurations agreeing on
runtime version, strategy, dependency text and base name produce
byte-identical generated text, so calling it twice with an unchanged
Configuration yields the same text both times. -/
theorem c9_generate_deterministic (c c' : Config)
    (h1 : c.selectedVersion = c'.selectedVersion)
    (h2 : c.packageManager = c'.packageManager)
    (h3 : c.librariesValue = c'.librariesValue)
    (h4 : c.zipNameValue = c'.zipNameValue) :
    generateCodeOf c = generateCodeOf c' := by
  simp [generateCodeOf, h1, h2, h3, h4]

/-- Witness for C9 at the initial Configuration. -/
theorem c9_generate_deterministic_witness :
    generateCodeOf ⟨"3.10", "pyenv", "", ""⟩ =
      generateCodeOf ⟨"3.10", "pyenv", "", ""⟩ :=
  c9_generate_deterministic ⟨"3.10", "pyenv", "", ""⟩ ⟨"3.10", "pyenv", "", ""⟩
    rfl rfl rfl rfl

/-- Claim C10: the branch test compares the strategy only against `pyenv`,
so every other strategy value — including values outside the two documented
variants — is routed to the fast/uv branch without rejection: the output
equals the uv template and coincides with the output for strategy `uv`. -/
theorem c10_unsupported_strategy_emits_uv (v pm l z : String) (h : pm ≠ "pyenv") :
    generateCode v pm l z =
      uvTemplate v (requirementsContentOf l) (zipNameOf z) (pyShortVersionOf v)
    ∧ generateCode v pm l z = generateCode v "uv" l z := by
  constructor <;> simp [generateCode, h]

/-- Witness for C10 at the undocumented strategy value "fast-venv". -/
theorem c10_unsupported_strategy_emits_uv_witness :
    generateCode "3.10" "fast-venv" "" "" =
      uvTemplate "3.10" (requirementsContentOf "") (zipNameOf "") (pyShortVersionOf "3.10")
    ∧ generateCode "3.10" "fast-venv" "" "" = generateCode "3.10" "uv" "" "" :=
  c10_unsupported_strategy_emits_uv "3.10" "fast-venv" "" "" (by decide)

end LambdaLayer
